import Mathlib

/-!
Shallow embedding of the core relay engine of `mev-boost-relay`
(`services/api/service.go`), covering the builder-submission pipeline
(`handleSubmitNewBlock`), the block-simulation wrapper (`simulateBlock`),
builder demotion (`demoteBuilder`, `processOptimisticBlock`), the per-slot
refresh (`updateOptimisticSlot`), the proposer header path
(`handleGetHeader`), and the validator-registration pipeline
(`handleRegisterValidator`).

External effects (Redis reads/writes, the simulator RPC, BLS signature
verification, JSON decoding) are modelled as oracle fields of a per-request
environment: each field records the outcome the external call would return,
and the pipeline functions are the exact Go control flow over those
outcomes.  Unsigned 64-bit and 256-bit machine integers are modelled as
`Nat` (no arithmetic in the modelled code paths overflows them); Go `int64`
values (Unix timestamps, millisecond clocks) are modelled as `Int`, with
the one int64→uint64 conversion in the source made explicit via `% 2^64`.
-/

/-- `const ErrBlockAlreadyKnown = "simulation failed: block already known"`. -/
def ErrBlockAlreadyKnown : String := "simulation failed: block already known"

/-- Builder status bits (`common.BuilderStatus`). -/
structure BuilderStatus where
  isHighPrio : Bool
  isBlacklisted : Bool
  isDemoted : Bool
deriving DecidableEq, Repr

/-- `blockBuilderCacheEntry`: status bits plus collateral (`types.U256Str`,
modelled as `Nat`). -/
structure BlockBuilderCacheEntry where
  status : BuilderStatus
  collateral : Nat
deriving DecidableEq, Repr

/-- The default cache entry used by `handleSubmitNewBlock` when the builder
is absent from `blockBuildersCache`: low-prio, not blacklisted, not
demoted, zero collateral. -/
def defaultBuilderEntry : BlockBuilderCacheEntry :=
  { status := { isHighPrio := false, isBlacklisted := false, isDemoted := false }
    collateral := 0 }

/-- `randaoHelper`: the expected prev-randao oracle (slot, hex value). -/
structure RandaoHelper where
  slot : Nat
  prevRandao : String
deriving DecidableEq, Repr

/-- Slot duty as read from `proposerDutiesMap`
(`types.RegisterValidatorRequestMessage`); only the fields the submission
pipeline inspects. -/
structure SlotDuty where
  feeRecipient : String
  gasLimit : Nat
deriving DecidableEq, Repr

/-- The fields of a decoded `types.BuilderSubmitBlockRequest` that the
pipeline inspects (bid-trace message plus execution-payload fields). -/
structure SubmitPayload where
  slot : Nat
  builderPubkey : String
  blockHash : String
  parentHash : String
  proposerPubkey : String
  proposerFeeRecipient : String
  value : Nat
  timestamp : Nat
  random : String
  numTx : Nat
deriving DecidableEq, Repr

/-- Outcome of reading `slot_last_payload_delivered` from Redis in
`handleSubmitNewBlock`: a transport error other than `redis.Nil`, a string
that fails `strconv.ParseUint` (this includes the empty string returned
with `redis.Nil`), or a parsed slot number. -/
inductive DeliveredRead where
  | transportError
  | unparsable
  | parsed (slot : Nat)
deriving DecidableEq, Repr

/-- One entry of the ordered Redis write sequence of an accepted
submission. -/
inductive CacheWrite where
  | bidTrace
  | execPayload
  | latestBid
  | topBid
deriving DecidableEq, Repr

/-- The full write order of `handleSubmitNewBlock`. -/
def submitWriteOrder : List CacheWrite :=
  [.bidTrace, .execPayload, .latestBid, .topBid]

/-- HTTP response of the submission handler: `ok` is a bare
`w.WriteHeader(http.StatusOK)` (also used for the silent drops), `err` is
`api.RespondError(code, msg)`. -/
inductive SubmitResponse where
  | ok
  | err (code : Nat) (msg : String)
deriving DecidableEq, Repr

/-- Observable result of one `handleSubmitNewBlock` call: the HTTP
response, the Redis write calls issued (in order), the
`optimisticSubmission` flag, and whether the synchronous `simulateBlock`
call was made. -/
structure SubmitResult where
  resp : SubmitResponse
  writes : List CacheWrite
  optimistic : Bool
  syncSim : Bool
deriving DecidableEq, Repr

/-- A rejection before any simulation or cache write. -/
def rejected (code : Nat) (msg : String) : SubmitResult :=
  { resp := .err code msg, writes := [], optimistic := false, syncSim := false }

/-- A 200 response with no work done (blacklist / low-prio silent drops and
the zero-value / zero-tx accept-and-ignore path). -/
def okNoWork : SubmitResult :=
  { resp := .ok, writes := [], optimistic := false, syncSim := false }

/-- Per-request environment of `handleSubmitNewBlock`: the relay state read
during the request plus oracles for every external call. -/
structure SubmitEnv where
  deliveredRead : DeliveredRead
  buildersCache : String → Option BlockBuilderCacheEntry
  genesisTime : Nat
  duties : Nat → Option SlotDuty
  ffDisableLowPrioBuilders : Bool
  headSlot : Nat
  optimisticSlot : Nat
  sanity : Option String            -- SanityCheckBuilderBlockSubmission error
  randao2 : RandaoHelper            -- expectedPrevRandao at decision time
  sigOk : Bool                      -- builder BLS signature verifies, no error
  simResult : Option String         -- raw blockSimRateLimiter.send error
  latestReceivedAt : Except Unit Int -- GetBuilderLatestPayloadReceivedAt
  receivedAtMillis : Int
  bidSignErr : Option String        -- BuilderSubmitBlockRequestToSignedBuilderBid
  wBidTrace : Option String         -- SaveBidTrace error
  wExecPayload : Option String      -- SaveExecutionPayload error
  wLatestBid : Option String        -- SaveLatestBuilderBid error
  wTopBid : Option String           -- UpdateTopBid error

/-- `simulateBlock`: forwards to the rate limiter and treats a returned
error whose message equals `ErrBlockAlreadyKnown` as success. -/
def simulateBlock (simRes : Option String) : Option String :=
  match simRes with
  | none => none
  | some msg => if msg = ErrBlockAlreadyKnown then none else some msg

/-- `demoteBuilder`: the status written to the database for the demoted
builder — high-prio and blacklist bits copied from the cache entry (default
entry if absent), demoted bit forced to `true`. -/
def demoteBuilder (cacheEntry : Option BlockBuilderCacheEntry) : BuilderStatus :=
  let builderEntry := cacheEntry.getD { status := { isHighPrio := false, isBlacklisted := false, isDemoted := false }, collateral := 0 }
  { isHighPrio := builderEntry.status.isHighPrio
    isBlacklisted := builderEntry.status.isBlacklisted
    isDemoted := true }

/-- `processOptimisticBlock`: runs `simulateBlock` outside the request and
demotes the builder iff it returns an error.  The result is whether a
demotion is performed. -/
def processOptimisticBlock (simRes : Option String) : Bool :=
  (simulateBlock simRes).isSome

/-- A row of the `blockbuilder` table as returned by `GetBlockBuilders`,
with the `U256Str` collateral parse outcome made explicit (`none` models a
string that fails `UnmarshalText`, which the code replaces by zero). -/
structure BuilderRow where
  builderPubkey : String
  isHighPrio : Bool
  isBlacklisted : Bool
  isDemoted : Bool
  collateralParsed : Option Nat
deriving Repr

/-- State touched by `updateOptimisticSlot`. -/
structure SlotUpdateState where
  optimisticSlot : Nat
  blockBuildersCache : String → Option BlockBuilderCacheEntry

/-- `updateOptimisticSlot`: after the optimistic-block barrier, set
`optimisticSlot := headSlot + 1`; then, if the `GetBlockBuilders` database
read succeeds, overwrite the builder cache entries from the rows (a failed
collateral parse becomes zero collateral). -/
def updateOptimisticSlot (st : SlotUpdateState) (headSlot : Nat)
    (builders : Except Unit (List BuilderRow)) : SlotUpdateState :=
  let st := { st with optimisticSlot := headSlot + 1 }
  match builders with
  | .error _ => st
  | .ok rows =>
    { st with blockBuildersCache :=
        rows.foldl (fun cache row => fun k =>
          if k = row.builderPubkey then
            some { status := { isHighPrio := row.isHighPrio
                               isBlacklisted := row.isBlacklisted
                               isDemoted := row.isDemoted }
                   collateral := row.collateralParsed.getD 0 }
          else cache k) st.blockBuildersCache }

/-- Redis write stage of `handleSubmitNewBlock` (bid trace, execution
payload, latest builder bid, top-bid recomputation, strictly in this
order); the first failing write aborts with a 500 response, leaving the
earlier writes in place. -/
def submitDoWrites (env : SubmitEnv) (optimistic : Bool) : SubmitResult :=
  match env.wBidTrace with
  | some e => { resp := .err 500 e, writes := [.bidTrace], optimistic := optimistic, syncSim := !optimistic }
  | none =>
    match env.wExecPayload with
    | some e => { resp := .err 500 e, writes := [.bidTrace, .execPayload], optimistic := optimistic, syncSim := !optimistic }
    | none =>
      match env.wLatestBid with
      | some e => { resp := .err 500 e, writes := [.bidTrace, .execPayload, .latestBid], optimistic := optimistic, syncSim := !optimistic }
      | none =>
        match env.wTopBid with
        | some e => { resp := .err 500 e, writes := submitWriteOrder, optimistic := optimistic, syncSim := !optimistic }
        | none => { resp := .ok, writes := submitWriteOrder, optimistic := optimistic, syncSim := !optimistic }

/-- Stages of `handleSubmitNewBlock` after the simulation branch: the
staleness check against `GetBuilderLatestPayloadReceivedAt` (a read error
is logged and ignored), bid signing, then the ordered cache writes. -/
def submitAfterSim (env : SubmitEnv) (optimistic : Bool) : SubmitResult :=
  if (match env.latestReceivedAt with
      | .error _ => false
      | .ok latest => decide (env.receivedAtMillis < latest)) = true then
    { resp := .err 400 "already using a newer payload", writes := [], optimistic := optimistic, syncSim := !optimistic }
  else
    match env.bidSignErr with
    | some e => { resp := .err 400 e, writes := [], optimistic := optimistic, syncSim := !optimistic }
    | none => submitDoWrites env optimistic

/-- The collateral branch of `handleSubmitNewBlock`: optimistic processing
iff `collateral > value && !demoted && slot == optimisticSlot`; otherwise a
synchronous `simulateBlock` whose failure rejects with 400 before any
cache write. -/
def collateralBranch (env : SubmitEnv) (p : SubmitPayload)
    (entry : BlockBuilderCacheEntry) : SubmitResult :=
  if p.value < entry.collateral ∧ entry.status.isDemoted = false ∧ p.slot = env.optimisticSlot then
    submitAfterSim env true
  else
    match simulateBlock env.simResult with
    | some e => { resp := .err 400 e, writes := [], optimistic := false, syncSim := true }
    | none => submitAfterSim env false

/-- Stages of `handleSubmitNewBlock` from the past-slot gate to the
collateral branch: past slot, zero value / zero transactions, sanity
check, prev-randao confirmation, builder signature. -/
def submitChecksStage (env : SubmitEnv) (p : SubmitPayload)
    (entry : BlockBuilderCacheEntry) : SubmitResult :=
  if p.slot ≤ env.headSlot then
    rejected 400 "submission for past slot"
  else if p.value = 0 ∨ p.numTx = 0 then
    okNoWork
  else
    match env.sanity with
    | some e => rejected 400 e
    | none =>
      if env.randao2.slot ≠ p.slot then
        rejected 500 "prev_randao is not known yet"
      else if env.randao2.prevRandao ≠ p.random then
        rejected 400 ("incorrect prev_randao - got: " ++ p.random ++ ", expected: " ++ env.randao2.prevRandao)
      else if env.sigOk = false then
        rejected 400 "invalid signature"
      else
        collateralBranch env p entry

/-- `handleSubmitNewBlock` after the delivered-slot gate: builder-cache
lookup (absent builders get `defaultBuilderEntry`), timestamp check, duty
lookup and fee-recipient match, blacklist and low-prio silent drops, then
the remaining checks. -/
def submitAfterDeliveredGate (env : SubmitEnv) (p : SubmitPayload) : SubmitResult :=
  let entry := (env.buildersCache p.builderPubkey).getD defaultBuilderEntry
  if p.timestamp ≠ env.genesisTime + p.slot * 12 then
    rejected 400 ("incorrect timestamp. got " ++ toString p.timestamp ++ ", expected " ++ toString (env.genesisTime + p.slot * 12))
  else
    match env.duties p.slot with
    | none => rejected 400 "could not find slot duty"
    | some duty =>
      if duty.feeRecipient ≠ p.proposerFeeRecipient then
        rejected 400 "fee recipient does not match"
      else if entry.status.isBlacklisted then
        okNoWork
      else if env.ffDisableLowPrioBuilders ∧ entry.status.isHighPrio = false then
        okNoWork
      else
        submitChecksStage env p entry

/-- `handleSubmitNewBlock` from the delivered-slot gate on (the request is
already decoded into `p`): a transport error or an unparsable value from
the `slot_last_payload_delivered` read is logged and the gate is skipped;
a parsed value `d` rejects every submission with `slot ≤ d`. -/
def handleSubmitNewBlock (env : SubmitEnv) (p : SubmitPayload) : SubmitResult :=
  match env.deliveredRead with
  | .transportError => submitAfterDeliveredGate env p
  | .unparsable => submitAfterDeliveredGate env p
  | .parsed d =>
    if p.slot ≤ d then
      rejected 400 "payload for this slot was already delivered"
    else
      submitAfterDeliveredGate env p

/-- The background write performed by `handleGetPayload` after delivering a
payload for `slot`: `SetStats(RedisStatsFieldSlotLastPayloadDelivered,
slot)`, so a later successful read of the marker yields `slot`. -/
def getPayloadDeliveredWrite (slot : Nat) : DeliveredRead :=
  .parsed slot

/-- The bid returned by `GetBestBid` in `handleGetHeader` when it is
non-nil with non-nil `Data` and `Data.Message`; only the value is
inspected by the handler. -/
structure BestBid where
  value : Nat
deriving DecidableEq, Repr

/-- Environment of one `handleGetHeader` call: the head slot, the
`FORCE_GET_HEADER_204` kill switch, and the `GetBestBid` outcome (`error`
is a Redis error; `ok none` covers a nil bid or nil `Data`/`Message`). -/
structure GetHeaderEnv where
  headSlot : Nat
  ffForceGetHeader204 : Bool
  bestBid : Except String (Option BestBid)

/-- Response of `handleGetHeader`. -/
inductive GetHeaderResponse where
  | err (code : Nat) (msg : String)
  | noContent
  | bid (value : Nat)
deriving DecidableEq, Repr

/-- `handleGetHeader` over already-route-matched string parameters: the
slot has parsed as `slot` (the route regex guarantees digits), and
`pubkeyLen` / `parentHashLen` are the raw hex-string lengths. -/
def handleGetHeader (env : GetHeaderEnv) (slot : Nat)
    (pubkeyLen parentHashLen : Nat) : GetHeaderResponse :=
  if pubkeyLen ≠ 98 then
    .err 400 "invalid pubkey"
  else if parentHashLen ≠ 66 then
    .err 400 "invalid hash"
  else if slot < env.headSlot then
    .err 400 "slot is too old"
  else if env.ffForceGetHeader204 then
    .noContent
  else
    match env.bestBid with
    | .error e => .err 400 e
    | .ok none => .noContent
    | .ok (some b) =>
      if b.value = 0 then .noContent
      else .bid b.value

/-- Outcome of `types.VerifySignature` for a registration element:
an error, a clean `false`, or a clean `true`. -/
inductive SigVerify where
  | errored (msg : String)
  | invalid
  | valid
deriving DecidableEq, Repr

/-- One element of a registration batch with the oracle outcomes of its
external calls: the streaming parse of `message.pubkey` /
`message.timestamp` (the timestamp is a Go `int64`), the known-validator
lookup, channel fullness, the Redis read of the previously stored
registration timestamp (a `uint64`), the full JSON decode, and the BLS
signature verification. -/
structure RegElem where
  parse : Except String (String × Int)
  isKnown : Bool
  activeChanFull : Bool
  prevTimestamp : Except Unit Nat
  decode : Option String
  sigVerify : SigVerify
  regChanFull : Bool
deriving Repr

/-- Per-element outcome recorded by the registration pipeline model. -/
inductive RegOutcome where
  | skippedStopped
  | parseError
  | tooFarFuture
  | unknownValidator
  | staleSkip
  | decodeError
  | sigError
  | sigInvalid
  | enqueued
deriving DecidableEq, Repr

/-- State threaded through `handleRegisterValidator`'s element loop:
the `processingStoppedByError` flag, `numRegProcessed`, every HTTP status
write attempted (`RespondError` and the final `WriteHeader`), the
active-validator and registration-persist channel contents, and the
per-element outcomes. -/
structure RegState where
  stopped : Bool
  processed : Nat
  responses : List (Nat × String)
  activeQ : List String
  persistQ : List (String × Int)
  outcomes : List RegOutcome
deriving DecidableEq, Repr

/-- Initial loop state. -/
def regInit : RegState :=
  { stopped := false, processed := 0, responses := [], activeQ := [],
    persistQ := [], outcomes := [] }

/-- The `respondError` closure: writes the error response and sets
`processingStoppedByError`. -/
def regStop (st : RegState) (code : Nat) (msg : String) (o : RegOutcome) : RegState :=
  { st with stopped := true, responses := st.responses ++ [(code, msg)],
            outcomes := st.outcomes ++ [o] }

/-- The Go conversion `uint64(timestampInt)` applied to the parsed `int64`
timestamp before comparing with the stored `uint64` timestamp. -/
def tsToU64 (ts : Int) : Nat :=
  (ts % (2 : Int) ^ 64).toNat

/-- Whether the stored-timestamp comparison skips the element: the read
succeeded and `prev ≥ uint64(ts)` (`prevTimestamp >= uint64(timestampInt)`
in the source; a read error logs and continues). -/
def regStale (e : RegElem) (ts : Int) : Bool :=
  match e.prevTimestamp with
  | .error _ => false
  | .ok prev => decide (tsToU64 ts ≤ prev)

/-- Processing of one registration element (`jsonparser.ArrayEach`
callback).  `startNs` is the handler start time in Unix nanoseconds; the
future bound is `start + 10 s` and `time.Unix(ts, 0).After(bound)` is the
strict comparison `ts·10⁹ > startNs + 10·10⁹`.  An element is skipped as
stale iff the stored-timestamp read succeeds with `prev ≥ uint64(ts)`; a
read error is logged and processing continues.  A clean `false` from
signature verification responds 400 via `api.RespondError` directly,
without setting the stopped flag. -/
def procRegElem (startNs : Int) (st : RegState) (e : RegElem) : RegState :=
  if st.stopped then
    { st with outcomes := st.outcomes ++ [.skippedStopped] }
  else
    let st := { st with processed := st.processed + 1 }
    match e.parse with
    | .error msg => regStop st 400 msg .parseError
    | .ok (pk, ts) =>
      if ts * 1000000000 > startNs + 10000000000 then
        regStop st 400 "timestamp too far in the future" .tooFarFuture
      else if e.isKnown = false then
        regStop st 400 ("not a known validator: " ++ pk) .unknownValidator
      else
        let st := if e.activeChanFull then st else { st with activeQ := st.activeQ ++ [pk] }
        if regStale e ts = true then
          { st with outcomes := st.outcomes ++ [.staleSkip] }
        else
          match e.decode with
          | some msg =>
            regStop st 400 ("error unmarshalling signed validator registration: " ++ msg) .decodeError
          | none =>
            match e.sigVerify with
            | .errored msg =>
              regStop st 400 ("error verifying registerValidator signature: " ++ msg) .sigError
            | .invalid =>
              { st with responses := st.responses ++ [(400, "failed to verify validator signature for " ++ pk)],
                        outcomes := st.outcomes ++ [.sigInvalid] }
            | .valid =>
              let st := if e.regChanFull then st else { st with persistQ := st.persistQ ++ [(pk, ts)] }
              { st with outcomes := st.outcomes ++ [.enqueued] }

/-- `handleRegisterValidator` from the element iteration on: fold the
elements, then either respond 400 on a `jsonparser.ArrayEach` traversal
error or attempt the final `w.WriteHeader(http.StatusOK)` (recorded as a
`(200, "")` response write). -/
def handleRegisterValidator (startNs : Int) (elems : List RegElem)
    (traversalErr : Bool) : RegState :=
  let st := elems.foldl (procRegElem startNs) regInit
  if traversalErr then
    { st with stopped := true, responses := st.responses ++ [(400, "error in traversing json")] }
  else
    { st with responses := st.responses ++ [(200, "")] }

/-- Whether signature verification did not return an error (a clean
`true` or a clean `false`). -/
def sigNotErrored : SigVerify → Bool
  | .errored _ => false
  | .invalid => true
  | .valid => true

/-- An element whose processing never invokes the stopping `respondError`
closure: it parses, is not too far in the future, is a known validator,
and — unless skipped as stale — decodes and its signature verification
does not error (a clean `false` does not stop processing). -/
def regNonStopping (startNs : Int) (e : RegElem) : Bool :=
  match e.parse with
  | .error _ => false
  | .ok (_, ts) =>
    decide (ts * 1000000000 ≤ startNs + 10000000000) && e.isKnown &&
      (regStale e ts || (e.decode.isNone && sigNotErrored e.sigVerify))


/-! ## Stage-reachability helpers for the submission pipeline -/

/-- The builder-cache entry used for this submission (default entry when
the builder is absent from the cache). -/
def entryOf (env : SubmitEnv) (p : SubmitPayload) : BlockBuilderCacheEntry :=
  (env.buildersCache p.builderPubkey).getD defaultBuilderEntry

/-- The delivered-slot gate does not reject: either the read was skipped
(transport error / unparsable) or the parsed slot is below the
submission's. -/
def deliveredGateOk (env : SubmitEnv) (p : SubmitPayload) : Bool :=
  match env.deliveredRead with
  | .parsed d => decide (d < p.slot)
  | _ => true

/-- The submission passes every gate strictly before the prev-randao
confirmation. -/
def reachesRandaoCheck (env : SubmitEnv) (p : SubmitPayload) : Bool :=
  deliveredGateOk env p &&
  decide (p.timestamp = env.genesisTime + p.slot * 12) &&
  (match env.duties p.slot with
   | none => false
   | some duty => decide (duty.feeRecipient = p.proposerFeeRecipient)) &&
  !(entryOf env p).status.isBlacklisted &&
  !(env.ffDisableLowPrioBuilders && !(entryOf env p).status.isHighPrio) &&
  decide (env.headSlot < p.slot) &&
  !decide (p.value = 0) && !decide (p.numTx = 0) &&
  env.sanity.isNone

/-- The submission passes every gate strictly before the collateral
branch. -/
def reachesCollateralBranch (env : SubmitEnv) (p : SubmitPayload) : Bool :=
  reachesRandaoCheck env p &&
  decide (env.randao2.slot = p.slot) &&
  decide (env.randao2.prevRandao = p.random) &&
  env.sigOk

theorem submitAfterSim_optimistic (env : SubmitEnv) (b : Bool) :
    (submitAfterSim env b).optimistic = b := by
  unfold submitAfterSim submitDoWrites
  repeat' split <;> try rfl

theorem submitAfterSim_syncSim (env : SubmitEnv) (b : Bool) :
    (submitAfterSim env b).syncSim = !b := by
  unfold submitAfterSim submitDoWrites
  repeat' split <;> try rfl

theorem gate_skip_or_pass (env : SubmitEnv) (p : SubmitPayload)
    (h : deliveredGateOk env p = true) :
    handleSubmitNewBlock env p = submitAfterDeliveredGate env p := by
  unfold handleSubmitNewBlock
  unfold deliveredGateOk at h
  cases hd : env.deliveredRead with
  | transportError => rfl
  | unparsable => rfl
  | parsed d =>
    rw [hd] at h
    simp only [decide_eq_true_eq] at h
    simp only []
    rw [if_neg (by omega)]

theorem reach_randao_eq (env : SubmitEnv) (p : SubmitPayload)
    (h : reachesRandaoCheck env p = true) :
    handleSubmitNewBlock env p =
      (if env.randao2.slot ≠ p.slot then rejected 500 "prev_randao is not known yet"
       else if env.randao2.prevRandao ≠ p.random then
         rejected 400 ("incorrect prev_randao - got: " ++ p.random ++ ", expected: " ++ env.randao2.prevRandao)
       else if env.sigOk = false then rejected 400 "invalid signature"
       else collateralBranch env p (entryOf env p)) := by
  unfold reachesRandaoCheck at h
  simp only [Bool.and_eq_true] at h
  obtain ⟨⟨⟨⟨⟨⟨⟨⟨hgate, hts⟩, hduty⟩, hbl⟩, hlp⟩, hslot⟩, hval⟩, htx⟩, hsan⟩ := h
  rw [decide_eq_true_eq] at hts hslot
  rw [Bool.not_eq_true'] at hbl hlp
  rw [Bool.not_eq_true', decide_eq_false_iff_not] at hval htx
  rw [Option.isNone_iff_eq_none] at hsan
  rw [gate_skip_or_pass env p hgate]
  unfold submitAfterDeliveredGate
  simp only []
  rw [if_neg (by simp [hts])]
  rcases hdu : env.duties p.slot with _ | duty
  · rw [hdu] at hduty; simp at hduty
  · rw [hdu] at hduty
    simp only [decide_eq_true_eq] at hduty
    simp only [hdu]
    rw [if_neg (by simp [hduty])]
    have hentry : (env.buildersCache p.builderPubkey).getD defaultBuilderEntry = entryOf env p := rfl
    rw [hentry]
    rw [if_neg (by simp [hbl])]
    rw [if_neg (fun hand => by rw [hand.1, hand.2] at hlp; simp at hlp)]
    unfold submitChecksStage
    rw [if_neg (by omega), if_neg (by simp [hval, htx])]
    rw [hsan]

theorem reach_collateral_eq (env : SubmitEnv) (p : SubmitPayload)
    (h : reachesCollateralBranch env p = true) :
    handleSubmitNewBlock env p = collateralBranch env p (entryOf env p) := by
  unfold reachesCollateralBranch at h
  simp only [Bool.and_eq_true] at h
  obtain ⟨⟨⟨hr, hrs⟩, hrr⟩, hsig⟩ := h
  rw [decide_eq_true_eq] at hrs hrr
  rw [reach_randao_eq env p hr]
  rw [if_neg (by simp [hrs]), if_neg (by simp [hrr]), if_neg (by simp [hsig])]

/-! ## Concrete fixtures for witnesses -/

/-- A submission environment in which every gate passes and the builder
qualifies for the optimistic path. -/
def baseEnv : SubmitEnv :=
  { deliveredRead := .parsed 100
    buildersCache := fun k =>
      if k = "0xbuilder" then
        some { status := { isHighPrio := true, isBlacklisted := false, isDemoted := false }
               collateral := 10 }
      else none
    genesisTime := 0
    duties := fun s => if s = 101 then some { feeRecipient := "0xfee", gasLimit := 30000000 } else none
    ffDisableLowPrioBuilders := false
    headSlot := 100
    optimisticSlot := 101
    sanity := none
    randao2 := { slot := 101, prevRandao := "0xrandao" }
    sigOk := true
    simResult := none
    latestReceivedAt := .error ()
    receivedAtMillis := 0
    bidSignErr := none
    wBidTrace := none
    wExecPayload := none
    wLatestBid := none
    wTopBid := none }

/-- A submission matching `baseEnv`: slot 101, value 5, correct timestamp,
fee recipient and randao. -/
def basePayload : SubmitPayload :=
  { slot := 101, builderPubkey := "0xbuilder", blockHash := "0xhash",
    parentHash := "0xparent", proposerPubkey := "0xproposer",
    proposerFeeRecipient := "0xfee", value := 5, timestamp := 1212,
    random := "0xrandao", numTx := 2 }

/-! ## Claim theorems -/

/-- **C1.** At the collateral branch, a submission is processed
optimistically iff the builder's cached collateral strictly exceeds the
submission value, the cached demoted bit is false, and the slot equals the
optimistic slot (which `updateOptimisticSlot` sets to `headSlot + 1`);
otherwise the block is simulated synchronously, and a simulation failure
is rejected with 400 before any bid-store write. -/
theorem optimistic_acceptance_tight (env : SubmitEnv) (p : SubmitPayload)
    (h : reachesCollateralBranch env p = true) :
    ((handleSubmitNewBlock env p).optimistic = true ↔
      (p.value < (entryOf env p).collateral ∧ (entryOf env p).status.isDemoted = false ∧
        p.slot = env.optimisticSlot)) ∧
    (¬(p.value < (entryOf env p).collateral ∧ (entryOf env p).status.isDemoted = false ∧
        p.slot = env.optimisticSlot) →
      ∀ e, simulateBlock env.simResult = some e →
        handleSubmitNewBlock env p =
          { resp := .err 400 e, writes := [], optimistic := false, syncSim := true }) ∧
    (∀ st hs b, (updateOptimisticSlot st hs b).optimisticSlot = hs + 1) := by
  rw [reach_collateral_eq env p h]
  refine ⟨?_, ?_, ?_⟩
  · unfold collateralBranch
    by_cases hc : (p.value < (entryOf env p).collateral ∧
        (entryOf env p).status.isDemoted = false ∧ p.slot = env.optimisticSlot)
    · rw [if_pos hc]
      simp [submitAfterSim_optimistic, hc]
    · rw [if_neg hc]
      cases hsim : simulateBlock env.simResult with
      | some e => simp [hc]
      | none => simp [submitAfterSim_optimistic, hc]
  · intro hc e he
    unfold collateralBranch
    rw [if_neg hc, he]
  · intro st hs b
    unfold updateOptimisticSlot
    cases b <;> rfl

/-- Witness for C1 at a concrete optimistic-qualifying input. -/
theorem optimistic_acceptance_tight_witness :
    reachesCollateralBranch baseEnv basePayload = true ∧
    (((handleSubmitNewBlock baseEnv basePayload).optimistic = true ↔
      (basePayload.value < (entryOf baseEnv basePayload).collateral ∧
        (entryOf baseEnv basePayload).status.isDemoted = false ∧
        basePayload.slot = baseEnv.optimisticSlot)) ∧
    (¬(basePayload.value < (entryOf baseEnv basePayload).collateral ∧
        (entryOf baseEnv basePayload).status.isDemoted = false ∧
        basePayload.slot = baseEnv.optimisticSlot) →
      ∀ e, simulateBlock baseEnv.simResult = some e →
        handleSubmitNewBlock baseEnv basePayload =
          { resp := .err 400 e, writes := [], optimistic := false, syncSim := true }) ∧
    (∀ st hs b, (updateOptimisticSlot st hs b).optimisticSlot = hs + 1)) :=
  ⟨by rfl, optimistic_acceptance_tight baseEnv basePayload (by rfl)⟩

/-- **C2.** Once `handleGetPayload` has stored the last-delivered-slot
marker `s` and the submission handler reads it back, every submission with
slot at most `s` is rejected with 400 "payload for this slot was already
delivered", with no cache write, no optimistic dispatch and no synchronous
simulation. -/
theorem delivered_slot_rejection (env : SubmitEnv) (p : SubmitPayload) (s : Nat)
    (h : env.deliveredRead = getPayloadDeliveredWrite s) (hle : p.slot ≤ s) :
    handleSubmitNewBlock env p = rejected 400 "payload for this slot was already delivered" ∧
    (handleSubmitNewBlock env p).writes = [] ∧
    (handleSubmitNewBlock env p).optimistic = false ∧
    (handleSubmitNewBlock env p).syncSim = false := by
  have hr : handleSubmitNewBlock env p = rejected 400 "payload for this slot was already delivered" := by
    unfold handleSubmitNewBlock
    rw [h]
    show (if p.slot ≤ s then rejected 400 "payload for this slot was already delivered"
          else submitAfterDeliveredGate env p) = _
    rw [if_pos hle]
  exact ⟨hr, by rw [hr]; rfl, by rw [hr]; rfl, by rw [hr]; rfl⟩

/-- Witness for C2: a slot-101 submission after slot 200 was delivered. -/
theorem delivered_slot_rejection_witness :
    ({ baseEnv with deliveredRead := .parsed 200 } : SubmitEnv).deliveredRead = getPayloadDeliveredWrite 200 ∧
    basePayload.slot ≤ 200 ∧
    (handleSubmitNewBlock { baseEnv with deliveredRead := .parsed 200 } basePayload =
      rejected 400 "payload for this slot was already delivered" ∧
    (handleSubmitNewBlock { baseEnv with deliveredRead := .parsed 200 } basePayload).writes = [] ∧
    (handleSubmitNewBlock { baseEnv with deliveredRead := .parsed 200 } basePayload).optimistic = false ∧
    (handleSubmitNewBlock { baseEnv with deliveredRead := .parsed 200 } basePayload).syncSim = false) :=
  ⟨rfl, by decide,
    delivered_slot_rejection { baseEnv with deliveredRead := .parsed 200 } basePayload 200 rfl (by decide)⟩

/-- Fixture for C3: `baseEnv` with the builder's cached demoted bit set. -/
def demotedEnv : SubmitEnv :=
  { baseEnv with buildersCache := fun k =>
      if k = "0xbuilder" then some ⟨⟨true, false, true⟩, 10⟩ else none }

/-- Builder state split across the durable store and the process-local
cache: `demoteBuilder` writes the store, `handleSubmitNewBlock` reads the
cache, and only the per-slot `updateOptimisticSlot` copies store rows into
the cache. -/
structure RelayBuilders where
  db : String → BuilderStatus
  cache : String → Option BlockBuilderCacheEntry

/-- The state effect of `demoteBuilder(pubkey, …)`: the demoted status
derived from the cache entry is written to the builder's database row
(`SetBlockBuilderStatus`); `blockBuildersCache` itself is not written. -/
def demoteBuilderEffect (s : RelayBuilders) (pk : String) : RelayBuilders :=
  { db := fun k => if k = pk then demoteBuilder (s.cache pk) else s.db k
    cache := s.cache }

/-- Builder state before the demotion of `"0xbuilder"`. -/
def preDemotionState : RelayBuilders :=
  { db := fun _ => { isHighPrio := true, isBlacklisted := false, isDemoted := false }
    cache := baseEnv.buildersCache }

/-- Counterexample to C3 as stated: right after `demoteBuilder` runs, the
builder's database row is demoted but the process-local builder cache is
untouched, so a subsequent submission in the same slot still takes the
optimistic path — it does not simulate synchronously. -/
theorem demotion_not_immediately_synchronous :
    ((demoteBuilderEffect preDemotionState "0xbuilder").db "0xbuilder").isDemoted = true ∧
    (demoteBuilderEffect preDemotionState "0xbuilder").cache = preDemotionState.cache ∧
    (handleSubmitNewBlock
      { baseEnv with buildersCache := (demoteBuilderEffect preDemotionState "0xbuilder").cache }
      basePayload).optimistic = true ∧
    (handleSubmitNewBlock
      { baseEnv with buildersCache := (demoteBuilderEffect preDemotionState "0xbuilder").cache }
      basePayload).syncSim = false :=
  ⟨by decide, rfl, by decide, by decide⟩

/-- **C3 (amended).** A submission whose cached builder entry carries the
demoted bit never takes the optimistic path: at the collateral branch it
is simulated synchronously.  The demotion writer (`demoteBuilder`, invoked
by the optimistic post-processing after a failed simulation) always writes
the demoted bit as `true`, preserving the other status bits — no pipeline
path writes it back to `false`; only the out-of-band internal
builder-status API can clear it.  The per-slot refresh
(`updateOptimisticSlot`) copies the database bit into the cache, so the
synchronous-path guarantee holds for every submission processed after the
next builder-cache refresh following the demotion. -/
theorem demoted_builder_sync_path (env : SubmitEnv) (p : SubmitPayload)
    (h : reachesCollateralBranch env p = true)
    (hdem : (entryOf env p).status.isDemoted = true) :
    ((handleSubmitNewBlock env p).optimistic = false ∧
     (handleSubmitNewBlock env p).syncSim = true) ∧
    (∀ ce, (demoteBuilder ce).isDemoted = true) ∧
    (∀ ce, (demoteBuilder ce).isHighPrio = (ce.getD defaultBuilderEntry).status.isHighPrio ∧
           (demoteBuilder ce).isBlacklisted = (ce.getD defaultBuilderEntry).status.isBlacklisted) ∧
    (∀ st hs row, (updateOptimisticSlot st hs (.ok [row])).blockBuildersCache row.builderPubkey =
      some { status := { isHighPrio := row.isHighPrio, isBlacklisted := row.isBlacklisted,
                         isDemoted := row.isDemoted }
             collateral := row.collateralParsed.getD 0 }) := by
  refine ⟨?_, fun ce => rfl, fun ce => ⟨rfl, rfl⟩, fun st hs row => ?_⟩
  · rw [reach_collateral_eq env p h]
    unfold collateralBranch
    rw [if_neg (by simp [hdem])]
    cases hsim : simulateBlock env.simResult with
    | some e => exact ⟨rfl, rfl⟩
    | none => exact ⟨submitAfterSim_optimistic env false, submitAfterSim_syncSim env false⟩
  · unfold updateOptimisticSlot
    simp

/-- Witness for the amended C3 at a concrete demoted builder. -/
theorem demoted_builder_sync_path_witness :
    reachesCollateralBranch demotedEnv basePayload = true ∧
    (entryOf demotedEnv basePayload).status.isDemoted = true ∧
    (((handleSubmitNewBlock demotedEnv basePayload).optimistic = false ∧
      (handleSubmitNewBlock demotedEnv basePayload).syncSim = true) ∧
    (∀ ce, (demoteBuilder ce).isDemoted = true) ∧
    (∀ ce, (demoteBuilder ce).isHighPrio = (ce.getD defaultBuilderEntry).status.isHighPrio ∧
           (demoteBuilder ce).isBlacklisted = (ce.getD defaultBuilderEntry).status.isBlacklisted) ∧
    (∀ st hs row, (updateOptimisticSlot st hs (.ok [row])).blockBuildersCache row.builderPubkey =
      some { status := { isHighPrio := row.isHighPrio, isBlacklisted := row.isBlacklisted,
                         isDemoted := row.isDemoted }
             collateral := row.collateralParsed.getD 0 })) :=
  ⟨by rfl, by rfl, demoted_builder_sync_path demotedEnv basePayload (by rfl) (by rfl)⟩

/-- **C4.** At the post-simulation randao-confirmation stage: a cached
expected-prev-randao slot different from the submission's slot rejects
with 500 "prev_randao is not known yet"; a matching slot with a different
randao value rejects with 400. -/
theorem randao_confirmation_rejections (env : SubmitEnv) (p : SubmitPayload)
    (h : reachesRandaoCheck env p = true) :
    (env.randao2.slot ≠ p.slot →
      handleSubmitNewBlock env p = rejected 500 "prev_randao is not known yet") ∧
    (env.randao2.slot = p.slot → env.randao2.prevRandao ≠ p.random →
      handleSubmitNewBlock env p =
        rejected 400 ("incorrect prev_randao - got: " ++ p.random ++ ", expected: " ++ env.randao2.prevRandao)) := by
  rw [reach_randao_eq env p h]
  constructor
  · intro h1
    rw [if_pos h1]
  · intro h1 h2
    rw [if_neg (by simp [h1]), if_pos h2]

/-- Witness for C4: the oracle still holds slot 99 when a slot-101
submission reaches the confirmation stage. -/
theorem randao_confirmation_rejections_witness :
    reachesRandaoCheck { baseEnv with randao2 := { slot := 99, prevRandao := "0xrandao" } } basePayload = true ∧
    ((({ baseEnv with randao2 := { slot := 99, prevRandao := "0xrandao" } } : SubmitEnv).randao2.slot ≠ basePayload.slot →
      handleSubmitNewBlock { baseEnv with randao2 := { slot := 99, prevRandao := "0xrandao" } } basePayload =
        rejected 500 "prev_randao is not known yet") ∧
    (({ baseEnv with randao2 := { slot := 99, prevRandao := "0xrandao" } } : SubmitEnv).randao2.slot = basePayload.slot →
      ({ baseEnv with randao2 := { slot := 99, prevRandao := "0xrandao" } } : SubmitEnv).randao2.prevRandao ≠ basePayload.random →
      handleSubmitNewBlock { baseEnv with randao2 := { slot := 99, prevRandao := "0xrandao" } } basePayload =
        rejected 400 ("incorrect prev_randao - got: " ++ basePayload.random ++ ", expected: " ++
          ({ baseEnv with randao2 := { slot := 99, prevRandao := "0xrandao" } } : SubmitEnv).randao2.prevRandao))) :=
  ⟨by rfl,
    randao_confirmation_rejections { baseEnv with randao2 := { slot := 99, prevRandao := "0xrandao" } }
      basePayload (by rfl)⟩

/-- **C9.** When the read of the last-delivered-slot marker fails with a
transport error or does not parse as an unsigned integer, the
delivered-slot gate is skipped entirely: the handler behaves exactly as
the pipeline without that gate, so a submission for an already-delivered
slot can still proceed. -/
theorem delivered_gate_skipped_on_read_failure (env : SubmitEnv) (p : SubmitPayload)
    (h : env.deliveredRead = .transportError ∨ env.deliveredRead = .unparsable) :
    handleSubmitNewBlock env p = submitAfterDeliveredGate env p := by
  rcases h with h | h <;> (unfold handleSubmitNewBlock; rw [h])

/-- Witness for C9: with a transport error on the marker read, a
submission sails through every remaining stage and is fully accepted
(optimistically) with all four cache writes. -/
theorem delivered_gate_skipped_on_read_failure_witness :
    (({ baseEnv with deliveredRead := .transportError } : SubmitEnv).deliveredRead = .transportError ∨
      ({ baseEnv with deliveredRead := .transportError } : SubmitEnv).deliveredRead = .unparsable) ∧
    handleSubmitNewBlock { baseEnv with deliveredRead := .transportError } basePayload =
      submitAfterDeliveredGate { baseEnv with deliveredRead := .transportError } basePayload ∧
    handleSubmitNewBlock { baseEnv with deliveredRead := .transportError } basePayload =
      { resp := .ok, writes := submitWriteOrder, optimistic := true, syncSim := false } :=
  ⟨Or.inl rfl,
    delivered_gate_skipped_on_read_failure { baseEnv with deliveredRead := .transportError }
      basePayload (Or.inl rfl),
    by rfl⟩

/-- **C8.** A simulator error whose message equals
`"simulation failed: block already known"` is treated as success:
`simulateBlock` returns no error, the optimistic post-processing performs
no demotion, and at the collateral branch the submission continues to the
post-simulation stages on both paths instead of being rejected. -/
theorem blockAlreadyKnown_treated_as_success :
    simulateBlock (some ErrBlockAlreadyKnown) = none ∧
    processOptimisticBlock (some ErrBlockAlreadyKnown) = false ∧
    (∀ env p entry, env.simResult = some ErrBlockAlreadyKnown →
      collateralBranch env p entry =
        if p.value < entry.collateral ∧ entry.status.isDemoted = false ∧
            p.slot = env.optimisticSlot then
          submitAfterSim env true
        else
          submitAfterSim env false) := by
  refine ⟨rfl, rfl, fun env p entry he => ?_⟩
  unfold collateralBranch
  rw [he]
  by_cases hc : (p.value < entry.collateral ∧ entry.status.isDemoted = false ∧
      p.slot = env.optimisticSlot)
  · rw [if_pos hc, if_pos hc]
  · rw [if_neg hc, if_neg hc]
    rfl

/-- Witness for C8 at a concrete environment whose simulator reports the
block as already known. -/
theorem blockAlreadyKnown_treated_as_success_witness :
    ({ baseEnv with simResult := some ErrBlockAlreadyKnown } : SubmitEnv).simResult = some ErrBlockAlreadyKnown ∧
    collateralBranch { baseEnv with simResult := some ErrBlockAlreadyKnown } basePayload defaultBuilderEntry =
      (if basePayload.value < defaultBuilderEntry.collateral ∧
          defaultBuilderEntry.status.isDemoted = false ∧
          basePayload.slot = ({ baseEnv with simResult := some ErrBlockAlreadyKnown } : SubmitEnv).optimisticSlot then
        submitAfterSim { baseEnv with simResult := some ErrBlockAlreadyKnown } true
      else
        submitAfterSim { baseEnv with simResult := some ErrBlockAlreadyKnown } false) :=
  ⟨rfl, blockAlreadyKnown_treated_as_success.2.2
    { baseEnv with simResult := some ErrBlockAlreadyKnown } basePayload defaultBuilderEntry rfl⟩

theorem submitAfterSim_eq_doWrites (env : SubmitEnv) (b : Bool)
    (hstale : (match env.latestReceivedAt with
               | .error _ => false
               | .ok latest => decide (env.receivedAtMillis < latest)) = false)
    (hsign : env.bidSignErr = none) :
    submitAfterSim env b = submitDoWrites env b := by
  unfold submitAfterSim
  rw [hstale, hsign]
  simp

/-- **C5.** For an accepted submission, the cache writes are attempted in
the order bid trace, execution payload, latest-builder-bid, top-bid
recomputation; the attempted writes always form a prefix of that order, a
failing write responds 500 with its error while the earlier writes stay
in place, and only when all four succeed does the handler respond 200. -/
theorem cache_writes_ordered (env : SubmitEnv) (p : SubmitPayload)
    (h : reachesCollateralBranch env p = true)
    (hsim : simulateBlock env.simResult = none)
    (hstale : (match env.latestReceivedAt with
               | .error _ => false
               | .ok latest => decide (env.receivedAtMillis < latest)) = false)
    (hsign : env.bidSignErr = none) :
    ((handleSubmitNewBlock env p).writes =
      submitWriteOrder.take (handleSubmitNewBlock env p).writes.length) ∧
    (∀ e, env.wBidTrace = some e →
      (handleSubmitNewBlock env p).resp = .err 500 e ∧
      (handleSubmitNewBlock env p).writes = [.bidTrace]) ∧
    (env.wBidTrace = none → ∀ e, env.wExecPayload = some e →
      (handleSubmitNewBlock env p).resp = .err 500 e ∧
      (handleSubmitNewBlock env p).writes = [.bidTrace, .execPayload]) ∧
    (env.wBidTrace = none → env.wExecPayload = none → ∀ e, env.wLatestBid = some e →
      (handleSubmitNewBlock env p).resp = .err 500 e ∧
      (handleSubmitNewBlock env p).writes = [.bidTrace, .execPayload, .latestBid]) ∧
    (env.wBidTrace = none → env.wExecPayload = none → env.wLatestBid = none →
      ∀ e, env.wTopBid = some e →
      (handleSubmitNewBlock env p).resp = .err 500 e ∧
      (handleSubmitNewBlock env p).writes = submitWriteOrder) ∧
    (env.wBidTrace = none → env.wExecPayload = none → env.wLatestBid = none →
      env.wTopBid = none →
      (handleSubmitNewBlock env p).resp = .ok ∧
      (handleSubmitNewBlock env p).writes = submitWriteOrder) := by
  obtain ⟨b, hb⟩ : ∃ b, handleSubmitNewBlock env p = submitDoWrites env b := by
    rw [reach_collateral_eq env p h]
    unfold collateralBranch
    by_cases hc : (p.value < (entryOf env p).collateral ∧
        (entryOf env p).status.isDemoted = false ∧ p.slot = env.optimisticSlot)
    · refine ⟨true, ?_⟩
      rw [if_pos hc]
      exact submitAfterSim_eq_doWrites env true hstale hsign
    · refine ⟨false, ?_⟩
      rw [if_neg hc, hsim]
      show submitAfterSim env false = _
      exact submitAfterSim_eq_doWrites env false hstale hsign
  rw [hb]
  rcases h1 : env.wBidTrace with _ | e1 <;>
    rcases h2 : env.wExecPayload with _ | e2 <;>
    rcases h3 : env.wLatestBid with _ | e3 <;>
    rcases h4 : env.wTopBid with _ | e4 <;>
    simp [submitDoWrites, h1, h2, h3, h4, submitWriteOrder]

/-- Witness for C5: all four writes succeed in `baseEnv`, the handler
responds 200 with the full write sequence. -/
theorem cache_writes_ordered_witness :
    reachesCollateralBranch baseEnv basePayload = true ∧
    simulateBlock baseEnv.simResult = none ∧
    (match baseEnv.latestReceivedAt with
     | .error _ => false
     | .ok latest => decide (baseEnv.receivedAtMillis < latest)) = false ∧
    baseEnv.bidSignErr = none ∧
    (((handleSubmitNewBlock baseEnv basePayload).writes =
      submitWriteOrder.take (handleSubmitNewBlock baseEnv basePayload).writes.length) ∧
    (∀ e, baseEnv.wBidTrace = some e →
      (handleSubmitNewBlock baseEnv basePayload).resp = .err 500 e ∧
      (handleSubmitNewBlock baseEnv basePayload).writes = [.bidTrace]) ∧
    (baseEnv.wBidTrace = none → ∀ e, baseEnv.wExecPayload = some e →
      (handleSubmitNewBlock baseEnv basePayload).resp = .err 500 e ∧
      (handleSubmitNewBlock baseEnv basePayload).writes = [.bidTrace, .execPayload]) ∧
    (baseEnv.wBidTrace = none → baseEnv.wExecPayload = none → ∀ e, baseEnv.wLatestBid = some e →
      (handleSubmitNewBlock baseEnv basePayload).resp = .err 500 e ∧
      (handleSubmitNewBlock baseEnv basePayload).writes = [.bidTrace, .execPayload, .latestBid]) ∧
    (baseEnv.wBidTrace = none → baseEnv.wExecPayload = none → baseEnv.wLatestBid = none →
      ∀ e, baseEnv.wTopBid = some e →
      (handleSubmitNewBlock baseEnv basePayload).resp = .err 500 e ∧
      (handleSubmitNewBlock baseEnv basePayload).writes = submitWriteOrder) ∧
    (baseEnv.wBidTrace = none → baseEnv.wExecPayload = none → baseEnv.wLatestBid = none →
      baseEnv.wTopBid = none →
      (handleSubmitNewBlock baseEnv basePayload).resp = .ok ∧
      (handleSubmitNewBlock baseEnv basePayload).writes = submitWriteOrder)) :=
  ⟨by rfl, rfl, rfl, rfl,
    cache_writes_ordered baseEnv basePayload (by rfl) rfl rfl rfl⟩

/-- **C6.** For a well-formed getHeader request: a slot strictly below the
head slot is rejected with 400 "slot is too old"; otherwise a missing bid
or a zero-value bid yields 204 (no content); and a zero-value bid is never
served as a response. -/
theorem getHeader_slot_gate_and_zero_bids (env : GetHeaderEnv) (slot : Nat) :
    (slot < env.headSlot → handleGetHeader env slot 98 66 = .err 400 "slot is too old") ∧
    (¬ slot < env.headSlot → env.bestBid = .ok none →
      handleGetHeader env slot 98 66 = .noContent) ∧
    (¬ slot < env.headSlot → ∀ b, env.bestBid = .ok (some b) → b.value = 0 →
      handleGetHeader env slot 98 66 = .noContent) ∧
    (∀ v, handleGetHeader env slot 98 66 = .bid v → v ≠ 0) := by
  unfold handleGetHeader
  rw [if_neg (by decide), if_neg (by decide)]
  refine ⟨fun h1 => by rw [if_pos h1], fun h1 h2 => ?_, fun h1 b h2 h3 => ?_, fun v hv hv0 => ?_⟩
  · rw [if_neg h1]
    by_cases hff : env.ffForceGetHeader204 = true
    · rw [if_pos hff]
    · rw [if_neg hff, h2]
  · rw [if_neg h1]
    by_cases hff : env.ffForceGetHeader204 = true
    · rw [if_pos hff]
    · rw [if_neg hff, h2]
      show (if b.value = 0 then GetHeaderResponse.noContent else .bid b.value) = .noContent
      rw [if_pos h3]
  · subst hv0
    by_cases h1 : slot < env.headSlot
    · rw [if_pos h1] at hv
      simp at hv
    · rw [if_neg h1] at hv
      by_cases hff : env.ffForceGetHeader204 = true
      · rw [if_pos hff] at hv
        simp at hv
      · rw [if_neg hff] at hv
        rcases hbb : env.bestBid with e | ob
        · rw [hbb] at hv
          simp at hv
        · rw [hbb] at hv
          cases ob with
          | none => simp at hv
          | some b =>
            simp only [] at hv
            by_cases hb0 : b.value = 0
            · rw [if_pos hb0] at hv
              simp at hv
            · rw [if_neg hb0] at hv
              simp at hv
              exact hb0 hv

/-- Witness for C6: head slot 100, a request for slot 50 is rejected as
too old. -/
theorem getHeader_slot_gate_and_zero_bids_witness :
    (50 < ({ headSlot := 100, ffForceGetHeader204 := false, bestBid := .ok none } : GetHeaderEnv).headSlot) ∧
    handleGetHeader { headSlot := 100, ffForceGetHeader204 := false, bestBid := .ok none } 50 98 66 =
      .err 400 "slot is too old" :=
  ⟨by decide,
    (getHeader_slot_gate_and_zero_bids
      { headSlot := 100, ffForceGetHeader204 := false, bestBid := .ok none } 50).1 (by decide)⟩

theorem tsToU64_of_nonneg (ts : Int) (h0 : 0 ≤ ts) (h1 : ts < 2 ^ 63) :
    tsToU64 ts = ts.toNat := by
  unfold tsToU64
  rw [Int.emod_eq_of_lt h0 (lt_of_lt_of_le h1 (by norm_num))]

theorem procRegElem_stale (startNs : Int) (st : RegState) (e : RegElem)
    (pk : String) (ts : Int)
    (hstop : st.stopped = false) (hparse : e.parse = .ok (pk, ts))
    (hfut : ts * 1000000000 ≤ startNs + 10000000000) (hk : e.isKnown = true)
    (hstale : regStale e ts = true) :
    procRegElem startNs st e =
      { st with processed := st.processed + 1,
                activeQ := st.activeQ ++ (if e.activeChanFull then [] else [pk]),
                outcomes := st.outcomes ++ [.staleSkip] } := by
  unfold procRegElem
  rw [hstop, if_neg (by simp)]
  simp only []
  rw [hparse]
  simp only []
  rw [if_neg (by omega), if_neg (by simp [hk]), if_pos hstale]
  cases hac : e.activeChanFull <;> simp [hac]

/-- Fixture refuting C7 as stated: a registration whose parsed timestamp
is the Go `int64` value −1 while the stored timestamp is 5. -/
def negTsElem : RegElem :=
  { parse := .ok ("0xval", -1), isKnown := true, activeChanFull := false,
    prevTimestamp := .ok 5, decode := none, sigVerify := .valid,
    regChanFull := false }

/-- Counterexample to C7 as stated: the incoming timestamp −1 is below the
stored timestamp 5, yet the element is not skipped — the comparison is
`prevTimestamp >= uint64(timestampInt)` and `uint64(-1) = 2⁶⁴−1`, so the
element is decoded, signature-verified and enqueued for persistence. -/
theorem registration_stale_skip_counterexample :
    ((-1 : Int) ≤ 5) ∧
    negTsElem.prevTimestamp = .ok 5 ∧
    procRegElem 0 regInit negTsElem =
      { stopped := false, processed := 1, responses := [], activeQ := ["0xval"],
        persistQ := [("0xval", -1)], outcomes := [.enqueued] } :=
  ⟨by decide, rfl, by decide⟩

/-- **C7 (amended).** For a processed batch element that parses to
`(pk, ts)`: a timestamp more than 10 s after the handler start is rejected
with 400 "timestamp too far in the future"; when `ts` is within the
non-negative `int64` range and the stored-timestamp read succeeds with
`stored ≥ ts`, the element is skipped without being decoded,
signature-verified or enqueued for persistence; and whenever the
stored-timestamp read succeeds and the element does enqueue a persist
write, `ts` strictly exceeds the stored value — the stored timestamp
never decreases. -/
theorem registration_timestamp_rules (startNs : Int) (st : RegState) (e : RegElem)
    (pk : String) (ts : Int)
    (hstop : st.stopped = false)
    (hparse : e.parse = .ok (pk, ts))
    (hlo : 0 ≤ ts) (hhi : ts < 2 ^ 63) :
    (ts * 1000000000 > startNs + 10000000000 →
      procRegElem startNs st e =
        { st with stopped := true, processed := st.processed + 1,
                  responses := st.responses ++ [(400, "timestamp too far in the future")],
                  outcomes := st.outcomes ++ [.tooFarFuture] }) ∧
    (∀ prev : Nat, ts * 1000000000 ≤ startNs + 10000000000 → e.isKnown = true →
      e.prevTimestamp = .ok prev → ts.toNat ≤ prev →
      (∀ d s2, procRegElem startNs st e =
        procRegElem startNs st { e with decode := d, sigVerify := s2 }) ∧
      procRegElem startNs st e =
        { st with processed := st.processed + 1,
                  activeQ := st.activeQ ++ (if e.activeChanFull then [] else [pk]),
                  outcomes := st.outcomes ++ [.staleSkip] }) ∧
    (∀ prev : Nat, e.prevTimestamp = .ok prev →
      (procRegElem startNs st e).persistQ ≠ st.persistQ → prev < ts.toNat) := by
  refine ⟨?_, ?_, ?_⟩
  · intro h1
    unfold procRegElem
    rw [hstop, if_neg (by simp)]
    simp only []
    rw [hparse]
    simp only []
    rw [if_pos h1]
    rfl
  · intro prev h1 hk hprev hle
    have hstale : regStale e ts = true := by
      unfold regStale
      rw [hprev]
      simp only [decide_eq_true_eq]
      rw [tsToU64_of_nonneg ts hlo hhi]
      exact hle
    refine ⟨fun d s2 => ?_, procRegElem_stale startNs st e pk ts hstop hparse h1 hk hstale⟩
    rw [procRegElem_stale startNs st e pk ts hstop hparse h1 hk hstale,
        procRegElem_stale startNs st { e with decode := d, sigVerify := s2 } pk ts hstop hparse h1 hk hstale]
  · intro prev hprev hne
    by_contra hge
    push_neg at hge
    apply hne
    unfold procRegElem
    rw [hstop, if_neg (by simp)]
    simp only []
    rw [hparse]
    simp only []
    by_cases hfut : ts * 1000000000 > startNs + 10000000000
    · rw [if_pos hfut]
      rfl
    · rw [if_neg hfut]
      by_cases hk : e.isKnown = false
      · rw [if_pos hk]
        rfl
      · rw [if_neg hk]
        have hstale : regStale e ts = true := by
          unfold regStale
          rw [hprev]
          simp only [decide_eq_true_eq]
          rw [tsToU64_of_nonneg ts hlo hhi]
          exact hge
        rw [if_pos hstale]
        cases hac : e.activeChanFull <;> simp [hac]

/-- Fixture for the amended C7: a slot-5 timestamp against a stored
timestamp of 10. -/
def staleElem : RegElem :=
  { parse := .ok ("0xv3", 5), isKnown := true, activeChanFull := false,
    prevTimestamp := .ok 10, decode := none, sigVerify := .valid,
    regChanFull := false }

/-- Witness for the amended C7 at a concrete stale element. -/
theorem registration_timestamp_rules_witness :
    regInit.stopped = false ∧ staleElem.parse = .ok ("0xv3", 5) ∧
    (0 : Int) ≤ 5 ∧ (5 : Int) < 2 ^ 63 ∧
    (((5 : Int) * 1000000000 > 0 + 10000000000 →
      procRegElem 0 regInit staleElem =
        { regInit with stopped := true, processed := regInit.processed + 1,
                       responses := regInit.responses ++ [(400, "timestamp too far in the future")],
                       outcomes := regInit.outcomes ++ [.tooFarFuture] }) ∧
    (∀ prev : Nat, (5 : Int) * 1000000000 ≤ 0 + 10000000000 → staleElem.isKnown = true →
      staleElem.prevTimestamp = .ok prev → (5 : Int).toNat ≤ prev →
      (∀ d s2, procRegElem 0 regInit staleElem =
        procRegElem 0 regInit { staleElem with decode := d, sigVerify := s2 }) ∧
      procRegElem 0 regInit staleElem =
        { regInit with processed := regInit.processed + 1,
                       activeQ := regInit.activeQ ++ (if staleElem.activeChanFull then [] else ["0xv3"]),
                       outcomes := regInit.outcomes ++ [.staleSkip] }) ∧
    (∀ prev : Nat, staleElem.prevTimestamp = .ok prev →
      (procRegElem 0 regInit staleElem).persistQ ≠ regInit.persistQ → prev < (5 : Int).toNat)) :=
  ⟨rfl, rfl, by decide, by decide,
    registration_timestamp_rules 0 regInit staleElem "0xv3" 5 rfl rfl (by decide) (by decide)⟩

theorem procRegElem_nonstopping (startNs : Int) (st : RegState) (e : RegElem)
    (hstop : st.stopped = false) (h : regNonStopping startNs e = true) :
    (procRegElem startNs st e).stopped = false ∧
    (procRegElem startNs st e).processed = st.processed + 1 := by
  unfold regNonStopping at h
  rcases hp : e.parse with m | ⟨pk, ts⟩
  · rw [hp] at h
    simp at h
  · rw [hp] at h
    simp only [Bool.and_eq_true, Bool.or_eq_true, decide_eq_true_eq] at h
    obtain ⟨⟨hfut, hk⟩, hrest⟩ := h
    unfold procRegElem
    rw [hstop, if_neg (by simp)]
    simp only []
    rw [hp]
    simp only []
    rw [if_neg (by omega), if_neg (by simp [hk])]
    by_cases hs : regStale e ts = true
    · rw [if_pos hs]
      cases hac : e.activeChanFull <;> simp [hac]
    · rw [if_neg hs]
      rcases hrest with hstale | hdec
    
      · exact absurd hstale hs
      · obtain ⟨hdec, hsne⟩ := hdec
        rw [Option.isNone_iff_eq_none] at hdec
        rw [hdec]
        simp only []
        rcases hsv : e.sigVerify with m2 | _ | _
        · rw [hsv] at hsne
          simp [sigNotErrored] at hsne
        · simp only []
          cases hac : e.activeChanFull <;> simp [hac]
        · simp only []
          cases hac : e.activeChanFull <;> cases hrc : e.regChanFull <;> simp [hac, hrc]

theorem regFold_nonstopping (startNs : Int) (elems : List RegElem) :
    ∀ st : RegState, (∀ e ∈ elems, regNonStopping startNs e = true) → st.stopped = false →
      (elems.foldl (procRegElem startNs) st).stopped = false ∧
      (elems.foldl (procRegElem startNs) st).processed = st.processed + elems.length := by
  induction elems with
  | nil =>
    intro st _ hstop
    simp [hstop]
  | cons e rest ih =>
    intro st h hstop
    simp only [List.foldl_cons, List.length_cons]
    obtain ⟨h1, h2⟩ := procRegElem_nonstopping startNs st e hstop (h e (by simp))
    obtain ⟨ih1, ih2⟩ := ih (procRegElem startNs st e) (fun x hx => h x (by simp [hx])) h1
    refine ⟨ih1, ?_⟩
    rw [ih2, h2]
    omega

/-- **C10.** A registration element whose BLS signature verification
returns a clean `false` gets a 400 response written via `RespondError`
directly, without setting `processingStoppedByError`; and in a batch whose
elements never trigger the stopping `respondError` closure (a clean
signature failure is such an element), every element is processed and the
final 200 status write is still attempted after the iteration. -/
theorem invalid_signature_does_not_stop (startNs : Int) :
    (∀ st e pk ts, st.stopped = false → e.parse = .ok (pk, ts) →
      ¬(ts * 1000000000 > startNs + 10000000000) → e.isKnown = true →
      regStale e ts = false → e.decode = none → e.sigVerify = .invalid →
      procRegElem startNs st e =
        { st with processed := st.processed + 1,
                  activeQ := st.activeQ ++ (if e.activeChanFull then [] else [pk]),
                  responses := st.responses ++ [(400, "failed to verify validator signature for " ++ pk)],
                  outcomes := st.outcomes ++ [.sigInvalid] }) ∧
    (∀ elems : List RegElem, (∀ e ∈ elems, regNonStopping startNs e = true) →
      (handleRegisterValidator startNs elems false).stopped = false ∧
      (handleRegisterValidator startNs elems false).processed = elems.length ∧
      (handleRegisterValidator startNs elems false).responses.getLast? = some (200, "")) := by
  constructor
  · intro st e pk ts hstop hparse hfut hk hstale hdec hsig
    unfold procRegElem
    rw [hstop, if_neg (by simp)]
    simp only []
    rw [hparse]
    simp only []
    rw [if_neg hfut, if_neg (by simp [hk]), if_neg (by simp [hstale]), hdec]
    simp only []
    rw [hsig]
    simp only []
    cases hac : e.activeChanFull <;> simp [hac]
  · intro elems h
    obtain ⟨h1, h2⟩ := regFold_nonstopping startNs elems regInit h rfl
    unfold handleRegisterValidator
    rw [if_neg (by simp)]
    refine ⟨h1, ?_, ?_⟩
    · show (elems.foldl (procRegElem startNs) regInit).processed = elems.length
      rw [h2]
      simp [regInit]
    · show ((elems.foldl (procRegElem startNs) regInit).responses ++ [(200, "")]).getLast? = some (200, "")
      simp

/-- Fixture for C10: an element whose signature verification cleanly
returns `false`. -/
def sigInvalidElem : RegElem :=
  { parse := .ok ("0xv1", 5), isKnown := true, activeChanFull := false,
    prevTimestamp := .ok 1, decode := none, sigVerify := .invalid,
    regChanFull := false }

/-- Fixture for C10: a fully valid element following the invalid one. -/
def validElem : RegElem :=
  { parse := .ok ("0xv2", 5), isKnown := true, activeChanFull := false,
    prevTimestamp := .ok 1, decode := none, sigVerify := .valid,
    regChanFull := false }

/-- Witness for C10: the invalid-signature element writes its 400 response
without stopping, and a two-element batch containing it is still fully
processed, ending in the 200 status write. -/
theorem invalid_signature_does_not_stop_witness :
    (regInit.stopped = false ∧ sigInvalidElem.parse = .ok ("0xv1", 5) ∧
      ¬((5 : Int) * 1000000000 > 0 + 10000000000) ∧ sigInvalidElem.isKnown = true ∧
      regStale sigInvalidElem 5 = false ∧ sigInvalidElem.decode = none ∧
      sigInvalidElem.sigVerify = .invalid) ∧
    procRegElem 0 regInit sigInvalidElem =
      { regInit with processed := regInit.processed + 1,
                     activeQ := regInit.activeQ ++ (if sigInvalidElem.activeChanFull then [] else ["0xv1"]),
                     responses := regInit.responses ++ [(400, "failed to verify validator signature for " ++ "0xv1")],
                     outcomes := regInit.outcomes ++ [.sigInvalid] } ∧
    ((handleRegisterValidator 0 [sigInvalidElem, validElem] false).stopped = false ∧
     (handleRegisterValidator 0 [sigInvalidElem, validElem] false).processed = [sigInvalidElem, validElem].length ∧
     (handleRegisterValidator 0 [sigInvalidElem, validElem] false).responses.getLast? = some (200, "")) :=
  ⟨⟨rfl, rfl, by decide, rfl, by decide, rfl, rfl⟩,
    (invalid_signature_does_not_stop 0).1 regInit sigInvalidElem "0xv1" 5 rfl rfl
      (by decide) rfl (by decide) rfl rfl,
    (invalid_signature_does_not_stop 0).2 [sigInvalidElem, validElem] (by decide)⟩
